import Mathlib

/-!
Shallow embedding of the RAG-Project frontend (React, `src/frontend` and the
unnamed parts holding `UploadPage`, `AdminPage`, `App`, `Layout`, `Sidebar`).

Each definition below is translated from a concrete function of the source:

* `sendQuery`        — `QueryPage.js`, the `sendQuery` submit handler;
* `renderCard`       — `QueryPage.js`, the `CitationCard` component's JSX;
* `renderCards`      — `QueryPage.js`, the citations block of `MessageBubble`;
* `deleteDoc`        — `DocumentsPage.js`, the `deleteDoc` handler;
* `filteredDocs`     — `DocumentsPage.js`, the `filtered` expression;
* `formatSizeDocs`   — `DocumentsPage.js`, `formatSize`;
* `formatSizeUpload` — `UploadPage` (src/unnamed/part_001), `formatSize`;
* `getFileType`      — `UploadPage`, `getFileType`;
* `uploadTrace`      — `UploadPage`, the sequential `uploadAll` loop;
* `AStep`/`AReach`   — `AdminPage` (src/unnamed/part_001), the `rebuilding`
                       flag guarding the rebuild button.

JavaScript strings are modelled as Lean `String`; JS numbers that the pages
only compare or format are modelled as `Nat` (byte counts, pages) or `ℚ`
(scores); absent JSON fields are `Option.none`; JS truthiness of a field is
made explicit by the `truthy*` helpers.
-/

namespace RAG

/-- JS `String.prototype.trim`: drop whitespace from both ends.
Mirrors `input.trim()` in `QueryPage.sendQuery`. -/
def jsTrim (s : String) : String :=
  ⟨((s.data.dropWhile Char.isWhitespace).reverse.dropWhile Char.isWhitespace).reverse⟩

/-- JS `String.prototype.toLowerCase` (ASCII model, per `Char.toLower`). -/
def lowerStr (s : String) : String :=
  ⟨s.data.map Char.toLower⟩

/-- Boolean list-prefix test on characters (helper for `strIncludes`). -/
def isPrefixCB : List Char → List Char → Bool
  | [], _ => true
  | _ :: _, [] => false
  | a :: as, b :: bs => a == b && isPrefixCB as bs

/-- Boolean substring containment on character lists (helper for `strIncludes`). -/
def containsCB (needle : List Char) : List Char → Bool
  | [] => needle.isEmpty
  | b :: bs => isPrefixCB needle (b :: bs) || containsCB needle bs

/-- JS `hay.includes(needle)`. -/
def strIncludes (hay needle : String) : Bool :=
  containsCB needle.data hay.data

/-- `hay.toLowerCase().includes(needle.toLowerCase())`, the test used by the
documents-page search filter. -/
def ciIncludes (hay needle : String) : Bool :=
  strIncludes (lowerStr hay) (lowerStr needle)

/-! ### QueryPage (`src/frontend/src/pages/QueryPage.js`) -/

/-- Message role, from the `role` strings "user" / "assistant". -/
inductive Role where
  | user
  | assistant
deriving DecidableEq

/-- A citation object of a `/query` response, with the fields `CitationCard`
reads. Absent fields are `none`. -/
structure Citation where
  index : Nat
  filename : String
  file_type : Option String
  score : Option ℚ
  page_number : Option Nat
  timestamp : Option String
  text_preview : String
deriving DecidableEq

/-- The body of a successful `/query` response (`res.data`). -/
structure QueryResponse where
  answer : String
  citations : List Citation
deriving DecidableEq

/-- The request body `{ query, top_k }` posted to `/query`. -/
structure QueryRequest where
  query : String
  top_k : Nat
deriving DecidableEq

/-- A chat message as stored in the `messages` state. The assistant error
message is created without a `citations` key, hence `Option`. -/
structure QMessage where
  role : Role
  content : String
  citations : Option (List Citation)
deriving DecidableEq

/-- The `QueryPage` component state used by `sendQuery`. -/
structure QState where
  messages : List QMessage
  input : String
  loading : Bool
deriving DecidableEq

/-- The fixed error text appended on a failed query. -/
def errText : String := "System error: Unable to process query. Please try again."

/-- The `sendQuery` handler. The async API call is modelled by passing its
outcome as an argument; the returned pair is the component state after the
handler (including the `finally` block) and the request body it posted, if
any. Mirrors lines 108–137 of `QueryPage.js`: the guard
`if (!input.trim() || loading) return;`, the user message, the success
append of `{answer, citations}`, and the fixed error append. -/
def sendQuery (s : QState) (outcome : Except String QueryResponse) :
    QState × Option QueryRequest :=
  if jsTrim s.input = "" ∨ s.loading = true then (s, none)
  else
    let q := jsTrim s.input
    let base := s.messages ++ [⟨Role.user, q, none⟩]
    match outcome with
    | Except.ok r =>
        (⟨base ++ [⟨Role.assistant, r.answer, some r.citations⟩], "", false⟩,
         some ⟨q, 5⟩)
    | Except.error _ =>
        (⟨base ++ [⟨Role.assistant, errText, none⟩], "", false⟩,
         some ⟨q, 5⟩)

/-- JS truthiness of an optional number field (0 and absent are falsy). -/
def truthyNat : Option Nat → Bool
  | none => false
  | some n => n != 0

/-- JS truthiness of an optional string field ("" and absent are falsy). -/
def truthyStr : Option String → Bool
  | none => false
  | some s => s != ""

/-- JS truthiness of an optional score (0 and absent are falsy). -/
def truthyRat : Option ℚ → Bool
  | none => false
  | some q => q != 0

/-- Rendering of a score value into the template literal (stand-in for JS
number formatting; its exact form is irrelevant to the claims). -/
def ratToString (q : ℚ) : String :=
  if q.den = 1 then toString q.num else toString q.num ++ "/" ++ toString q.den

/-- What one `CitationCard` displays: the header line, the three conditional
pieces of the metadata line (a piece is `none` when its JSX interpolation
renders the empty string), and the collapsible preview text. -/
structure CardView where
  header : String
  pagePart : Option String
  tsPart : Option String
  scorePart : Option String
  preview : String
deriving DecidableEq

/-- The `CitationCard` component, lines 21–53 of `QueryPage.js`:
header `[{index}] {filename}`; metadata pieces
`{page_number ? ... : ""}{timestamp ? ... : ""}{score ? ... : ""}`;
preview `{text_preview}`. -/
def renderCard (c : Citation) : CardView :=
  { header := "[" ++ toString c.index ++ "] " ++ c.filename
    pagePart :=
      if truthyNat c.page_number then some ("Page " ++ toString (c.page_number.getD 0))
      else none
    tsPart :=
      if truthyStr c.timestamp then some (" " ++ c.timestamp.getD "")
      else none
    scorePart :=
      if truthyRat c.score then some (" // Score: " ++ ratToString (c.score.getD 0))
      else none
    preview := c.text_preview }

/-- The citations block of `MessageBubble` (lines 78–88): rendered only when
`message.citations?.length > 0`, one `CitationCard` per citation in list
order. -/
def renderCards (m : QMessage) : List CardView :=
  match m.citations with
  | none => []
  | some cs => if cs.isEmpty then [] else cs.map renderCard

/-! ### DocumentsPage (`src/frontend/src/pages/DocumentsPage.js`) -/

/-- A document row as served by `/documents`, with the fields the page reads. -/
structure Doc where
  id : String
  filename : String
  file_type : String
  file_size : Nat
  total_chunks : Nat
deriving DecidableEq

/-- `DocumentsPage.formatSize` (lines 26–31), over integral byte counts.
`toFixed1 num den` stands for the shared subexpression
`(num/den).toFixed(1)` of both pages (one decimal, round half up). -/
def toFixed1 (num den : Nat) : String :=
  let scaled := (num * 10 + den / 2) / den
  toString (scaled / 10) ++ "." ++ toString (scaled % 10)

/-- `formatSize` of `DocumentsPage.js`: has the extra `if (!bytes)` guard. -/
def formatSizeDocs (bytes : Nat) : String :=
  if bytes = 0 then "0 B"
  else if bytes < 1024 then toString bytes ++ " B"
  else if bytes < 1048576 then toFixed1 bytes 1024 ++ " KB"
  else toFixed1 bytes 1048576 ++ " MB"

/-- The `deleteDoc` handler (lines 50–61): on success the docs state becomes
`prev.filter((d) => d.id !== doc.id)`; on failure it is untouched. The API
outcome is passed as a Boolean. -/
def deleteDoc (docs : List Doc) (target : Doc) (success : Bool) : List Doc :=
  if success then docs.filter (fun x => x.id != target.id) else docs

/-- The `filtered` expression (lines 63–66): keep a doc when its filename or
its file_type contains the search string, both sides lowercased. -/
def filteredDocs (docs : List Doc) (search : String) : List Doc :=
  docs.filter (fun d => ciIncludes d.filename search || ciIncludes d.file_type search)

/-! ### UploadPage (`src/unnamed/part_001`, lines 375–606) -/

/-- JS `name.split(".")` on character lists (split never yields an empty
list, matching the JS semantics used by `getFileType`). -/
def splitOnDot : List Char → List (List Char)
  | [] => [[]]
  | c :: rest =>
      let r := splitOnDot rest
      if c = '.' then [] :: r
      else
        match r with
        | [] => [[c]]
        | h :: t => (c :: h) :: t

/-- `name.split(".").pop()`: the raw (not yet lowercased) extension. -/
def rawExt (name : String) : String :=
  ⟨(splitOnDot name.data).getLastD []⟩

/-- `name.split(".").pop().toLowerCase()`: the lowercased extension. -/
def extOf (name : String) : String :=
  lowerStr (rawExt name)

/-- The pure classification applied to a lowercased extension (the body of
`getFileType` after computing `ext`). -/
def classifyExt (ext : String) : String :=
  if ["pdf"].contains ext then "pdf"
  else if ["docx", "doc"].contains ext then "docx"
  else if ["png", "jpg", "jpeg", "gif", "bmp", "webp"].contains ext then "image"
  else if ["mp3", "wav", "ogg", "m4a", "flac"].contains ext then "audio"
  else "unknown"

/-- `UploadPage.getFileType` (lines 395–402). -/
def getFileType (name : String) : String :=
  classifyExt (extOf name)

/-- `formatSize` of the upload page (lines 404–408): identical to the
documents page's version except that it lacks the `if (!bytes)` guard. -/
def formatSizeUpload (bytes : Nat) : String :=
  if bytes < 1024 then toString bytes ++ " B"
  else if bytes < 1048576 then toFixed1 bytes 1024 ++ " KB"
  else toFixed1 bytes 1048576 ++ " MB"

/-- An entry of the upload queue (`files` state); only the fields `uploadAll`
consults. -/
structure FileItem where
  id : String
deriving DecidableEq

/-- Upload lifecycle events: `uploadFile(f)` starts, then its awaited promise
settles. -/
inductive UEvent where
  | start (id : String)
  | finish (id : String)
deriving DecidableEq

/-- The event trace of `uploadAll` (lines 465–470): it filters the queue to
the files without a result, then runs `await uploadFile(f)` for each in
order — each upload finishes before the next starts. -/
def uploadTrace (files : List FileItem) (results : List String) : List UEvent :=
  (files.filter (fun f => !(results.contains f.id))).flatMap
    (fun f => [UEvent.start f.id, UEvent.finish f.id])

/-- `seqOk busy t` checks that in trace `t` no upload starts while another is
in flight (`busy` = an upload is currently open). -/
def seqOk : Bool → List UEvent → Bool
  | busy, UEvent.start _ :: rest => !busy && seqOk true rest
  | _, UEvent.finish _ :: rest => seqOk false rest
  | _, [] => true

/-- The document each `start` event belongs to, for order-of-processing
statements. -/
def startId : UEvent → Option String
  | UEvent.start i => some i
  | UEvent.finish _ => none

/-! ### AdminPage (`src/unnamed/part_001`, lines 150–374) -/

/-- The admin page state relevant to the rebuild control: the `rebuilding`
flag, plus a ghost count of rebuild requests currently in flight. -/
structure AState where
  rebuilding : Bool
  inFlight : Nat
deriving DecidableEq

/-- Events of the rebuild control. -/
inductive AEvent where
  | request
  | complete
deriving DecidableEq

/-- Transitions of the rebuild control. A `request` is a click on the
REBUILD INDEX button: it is `disabled={rebuilding}`, so the click is only
possible with `rebuilding = false`, and `rebuildIndex` immediately sets
`setRebuilding(true)` before posting. A `complete` is the settling of the
posted request: the `finally` block runs `setRebuilding(false)`. -/
inductive AStep : AState → AEvent → AState → Prop
  | request (n : Nat) : AStep ⟨false, n⟩ AEvent.request ⟨true, n + 1⟩
  | complete (b : Bool) (n : Nat) : AStep ⟨b, n + 1⟩ AEvent.complete ⟨false, n⟩

/-- States reachable from the initial page state (`rebuilding = false`, no
request in flight). -/
inductive AReach : AState → Prop
  | init : AReach ⟨false, 0⟩
  | step {s e s2} : AReach s → AStep s e s2 → AReach s2

/-! ### Helper lemmas -/

/-- The empty needle is contained in every haystack (JS `includes("")`). -/
theorem containsCB_empty (hay : List Char) : containsCB [] hay = true := by
  induction hay with
  | nil => rfl
  | cons b bs ih => simp [containsCB, isPrefixCB]

/-- The documents-page search test accepts everything on the empty search
string. -/
theorem ciIncludes_empty (hay : String) : ciIncludes hay "" = true := by
  have hdata : (lowerStr "").data = [] := rfl
  unfold ciIncludes strIncludes
  rw [hdata]
  exact containsCB_empty _

/-- A flat list of per-file `[start, finish]` blocks never opens a second
upload while one is in flight. -/
theorem seqOk_blocks (l : List FileItem) :
    seqOk false (l.flatMap fun f => [UEvent.start f.id, UEvent.finish f.id]) = true := by
  induction l with
  | nil => rfl
  | cons f t ih => simpa [seqOk] using ih

/-- The start events of a flat list of `[start, finish]` blocks are the file
ids in queue order. -/
theorem startIds_blocks (l : List FileItem) :
    (l.flatMap fun f => [UEvent.start f.id, UEvent.finish f.id]).filterMap startId =
      l.map (fun f => f.id) := by
  induction l with
  | nil => rfl
  | cons f t ih => simp [startId, ih]

/-- Reachable admin states satisfy: the ghost in-flight count is 1 exactly
when the `rebuilding` flag is set, else 0. -/
theorem areach_invariant {s : AState} (h : AReach s) :
    s.inFlight = (if s.rebuilding then 1 else 0) := by
  induction h with
  | init => rfl
  | step _ hstep ih =>
      cases hstep with
      | request n =>
          simp only [if_true, if_false] at ih ⊢
          simp at ih
          simp [ih]
      | complete b n =>
          cases b with
          | false => simp at ih
          | true => simp at ih ⊢; omega

/-! ### Claims -/

/-- C1: for every query whose request fails, the query page appends an
assistant message with the fixed text "System error: Unable to process
query. Please try again." and no citations (so its rendered citation block
is empty), rather than surfacing the raw error. -/
theorem query_failure_appends_fixed_error (s : QState) (err : String)
    (h1 : jsTrim s.input ≠ "") (h2 : s.loading = false) :
    (sendQuery s (Except.error err)).1.messages =
      s.messages ++ [⟨Role.user, jsTrim s.input, none⟩, ⟨Role.assistant, errText, none⟩] ∧
    renderCards ⟨Role.assistant, errText, none⟩ = [] := by
  constructor
  · unfold sendQuery
    rw [if_neg (by simp [h1, h2])]
    simp
  · rfl

/-- Witness for C1 at a concrete state and error. -/
theorem query_failure_appends_fixed_error_witness :
    (sendQuery ⟨[], "hi", false⟩ (Except.error "boom")).1.messages =
      [] ++ [⟨Role.user, jsTrim "hi", none⟩, ⟨Role.assistant, errText, none⟩] ∧
    renderCards ⟨Role.assistant, errText, none⟩ = [] :=
  query_failure_appends_fixed_error ⟨[], "hi", false⟩ "boom" (by decide) rfl

/-- C2: every request the query page posts to `/query` carries the trimmed
input text and `top_k = 5`. -/
theorem query_request_trimmed_topk5 (s : QState) (o : Except String QueryResponse)
    (req : QueryRequest) (h : (sendQuery s o).2 = some req) :
    req.query = jsTrim s.input ∧ req.top_k = 5 := by
  unfold sendQuery at h
  by_cases hc : jsTrim s.input = "" ∨ s.loading = true
  · rw [if_pos hc] at h
    simp at h
  · rw [if_neg hc] at h
    cases o <;> simp only [Option.some.injEq] at h <;> exact h ▸ ⟨rfl, rfl⟩

/-- Witness for C2 at a concrete state and outcome. -/
theorem query_request_trimmed_topk5_witness :
    (⟨"hi", 5⟩ : QueryRequest).query = jsTrim "hi" ∧
    (⟨"hi", 5⟩ : QueryRequest).top_k = 5 :=
  query_request_trimmed_topk5 ⟨[], "hi", false⟩ (Except.ok ⟨"a", []⟩) ⟨"hi", 5⟩ (by decide)

/-- C8: when the input is empty after trimming, or a query is still loading,
the submit handler issues no request and leaves the whole component state
(messages and input included) unchanged. -/
theorem sendQuery_guard_noop (s : QState) (o : Except String QueryResponse)
    (h : jsTrim s.input = "" ∨ s.loading = true) :
    sendQuery s o = (s, none) := by
  unfold sendQuery
  rw [if_pos h]

/-- Witness for C8 at a whitespace-only input. -/
theorem sendQuery_guard_noop_witness :
    sendQuery ⟨[], "  ", false⟩ (Except.ok ⟨"a", []⟩) = (⟨[], "  ", false⟩, none) :=
  sendQuery_guard_noop ⟨[], "  ", false⟩ (Except.ok ⟨"a", []⟩) (Or.inl (by decide))

/-- C3 counterexample: a successful response whose single citation carries
`score = 0` (a value the JSON may carry). The rendered assistant message's
card shows header, page and preview, but its score piece is `none` — the
JSX `{citation.score ? ... : ""}` drops falsy scores — so the card does not
display that citation's score, contrary to the claim. -/
theorem query_success_zero_score_not_displayed :
    renderCards
        ((sendQuery ⟨[], "q", false⟩
            (Except.ok ⟨"ans", [⟨1, "a.pdf", some "pdf", some 0, some 2, none, "pv"⟩]⟩)).1.messages.getLastD
          ⟨Role.user, "", none⟩) =
      [{ header := "[1] a.pdf", pagePart := some "Page 2", tsPart := none,
         scorePart := none, preview := "pv" }] := by
  decide

/-- C3 amended: on a successful query the appended assistant message's
content is the response's `answer` and its citation cards are exactly the
response's citations rendered in list order; each card always shows the
citation's index, filename and text_preview, and shows its page_number,
timestamp and score exactly when the field is present and truthy (nonzero
number, nonempty string). -/
theorem query_success_render (s : QState) (r : QueryResponse)
    (h1 : jsTrim s.input ≠ "") (h2 : s.loading = false) :
    (sendQuery s (Except.ok r)).1.messages =
      s.messages ++ [⟨Role.user, jsTrim s.input, none⟩,
                     ⟨Role.assistant, r.answer, some r.citations⟩] ∧
    renderCards ⟨Role.assistant, r.answer, some r.citations⟩ = r.citations.map renderCard ∧
    ∀ c : Citation,
      (renderCard c).header = "[" ++ toString c.index ++ "] " ++ c.filename ∧
      (renderCard c).preview = c.text_preview ∧
      (renderCard c).pagePart.isSome = truthyNat c.page_number ∧
      (renderCard c).tsPart.isSome = truthyStr c.timestamp ∧
      (renderCard c).scorePart.isSome = truthyRat c.score := by
  refine ⟨?_, ?_, ?_⟩
  · unfold sendQuery
    rw [if_neg (by simp [h1, h2])]
    simp
  · rcases hc : r.citations with _ | ⟨a, t⟩ <;> simp [renderCards, hc]
  · intro c
    refine ⟨rfl, rfl, ?_, ?_, ?_⟩
    · cases hp : truthyNat c.page_number <;> simp [renderCard, hp]
    · cases ht : truthyStr c.timestamp <;> simp [renderCard, ht]
    · cases hs : truthyRat c.score <;> simp [renderCard, hs]

/-- Witness for the amended C3 at a concrete state and response. -/
theorem query_success_render_witness :
    (sendQuery ⟨[], "q", false⟩ (Except.ok ⟨"ans", []⟩)).1.messages =
      [] ++ [⟨Role.user, jsTrim "q", none⟩, ⟨Role.assistant, "ans", some []⟩] ∧
    renderCards ⟨Role.assistant, "ans", some []⟩ = List.map renderCard [] ∧
    ∀ c : Citation,
      (renderCard c).header = "[" ++ toString c.index ++ "] " ++ c.filename ∧
      (renderCard c).preview = c.text_preview ∧
      (renderCard c).pagePart.isSome = truthyNat c.page_number ∧
      (renderCard c).tsPart.isSome = truthyStr c.timestamp ∧
      (renderCard c).scorePart.isSome = truthyRat c.score :=
  query_success_render ⟨[], "q", false⟩ ⟨"ans", []⟩ (by decide) rfl

/-- C4: a successful delete leaves the docs list equal to the previous list
with exactly the entries whose id equals the target's removed — the rest
kept unchanged and in order (a sublist) — while a failed delete leaves the
list untouched. -/
theorem delete_doc_spec (docs : List Doc) (target : Doc) :
    deleteDoc docs target false = docs ∧
    (deleteDoc docs target true).Sublist docs ∧
    ∀ x : Doc, x ∈ deleteDoc docs target true ↔ x ∈ docs ∧ x.id ≠ target.id := by
  refine ⟨rfl, ?_, ?_⟩
  · simp only [deleteDoc, if_pos]
    exact List.filter_sublist docs
  · intro x
    simp [deleteDoc, List.mem_filter]

/-- C10: the documents page keeps a document in the filtered list iff its
filename or its file_type contains the search string case-insensitively,
and the empty search string filters nothing out. -/
theorem documents_filter_spec :
    (∀ (docs : List Doc) (search : String) (d : Doc),
        d ∈ filteredDocs docs search ↔
          d ∈ docs ∧
            (ciIncludes d.filename search = true ∨ ciIncludes d.file_type search = true)) ∧
    ∀ docs : List Doc, filteredDocs docs "" = docs := by
  constructor
  · intro docs search d
    simp [filteredDocs, List.mem_filter]
  · intro docs
    unfold filteredDocs
    rw [List.filter_eq_self]
    intro a _
    simp [ciIncludes_empty]

/-- C5: in every reachable state of the admin page's rebuild control there is
at most one rebuild request in flight, and a further request step is only
possible when none is in flight — the button is `disabled={rebuilding}`
from the moment a rebuild is requested until it completes. -/
theorem rebuild_single_flight (s : AState) (h : AReach s) :
    s.inFlight ≤ 1 ∧ ∀ s2, AStep s AEvent.request s2 → s.inFlight = 0 := by
  have inv := areach_invariant h
  constructor
  · rw [inv]
    split <;> simp
  · intro s2 hstep
    cases hstep
    simpa using inv

/-- Witness for C5 at the reachable state right after one rebuild click. -/
theorem rebuild_single_flight_witness :
    (⟨true, 1⟩ : AState).inFlight ≤ 1 ∧
    ∀ s2, AStep ⟨true, 1⟩ AEvent.request s2 → (⟨true, 1⟩ : AState).inFlight = 0 :=
  rebuild_single_flight ⟨true, 1⟩ (AReach.step AReach.init (AStep.request 0))

/-- C6 counterexample: the file "notes.txt" is offered for upload (drag and
drop is not restricted by the input's `accept` list) and `getFileType`
classifies it as "unknown", which is outside {pdf, docx, image, audio}. -/
theorem getFileType_txt_unknown :
    getFileType "notes.txt" = "unknown" ∧
    "unknown" ∉ ["pdf", "docx", "image", "audio"] := by
  constructor <;> decide

/-- C6 amended: classification is deterministic and depends only on the
lowercased filename extension (hence is case-insensitive), and the modality
always lies in {pdf, docx, image, audio, unknown}. -/
theorem getFileType_classification (n1 n2 : String)
    (h : lowerStr (rawExt n1) = lowerStr (rawExt n2)) :
    getFileType n1 = getFileType n2 ∧
    getFileType n1 ∈ ["pdf", "docx", "image", "audio", "unknown"] := by
  constructor
  · unfold getFileType extOf
    exact congrArg classifyExt h
  · unfold getFileType classifyExt
    repeat' split
    all_goals simp

/-- Witness for the amended C6 on a concrete pair of filenames differing
only in extension case. -/
theorem getFileType_classification_witness :
    getFileType "Report.PDF" = getFileType "report.pdf" ∧
    getFileType "Report.PDF" ∈ ["pdf", "docx", "image", "audio", "unknown"] :=
  getFileType_classification "Report.PDF" "report.pdf" (by decide)

/-- C7 counterexample: a queue of two pending files produces the event trace
start a, finish a, start b, finish b — the second upload starts only after
the first completes, so the batch IS processed strictly one after another,
contrary to the claim. -/
theorem uploadAll_two_files_sequential :
    uploadTrace [⟨"a"⟩, ⟨"b"⟩] [] =
      [UEvent.start "a", UEvent.finish "a", UEvent.start "b", UEvent.finish "b"] ∧
    seqOk false (uploadTrace [⟨"a"⟩, ⟨"b"⟩] []) = true := by
  constructor <;> decide

/-- C7 amended: `uploadAll` processes a batch strictly sequentially — no
upload starts while another is in flight, and the uploads start in queue
order over exactly the files without a previous result. -/
theorem uploadAll_strictly_sequential (files : List FileItem) (results : List String) :
    seqOk false (uploadTrace files results) = true ∧
    (uploadTrace files results).filterMap startId =
      (files.filter (fun f => !(results.contains f.id))).map (fun f => f.id) := by
  unfold uploadTrace
  exact ⟨seqOk_blocks _, startIds_blocks _⟩

/-- C9: the upload page's `formatSize` and the documents page's `formatSize`
agree on every byte count (the extra `if (!bytes)` guard of the documents
page changes nothing, since the common branch already prints "0 B" at 0). -/
theorem formatSize_functions_agree (bytes : Nat) :
    formatSizeUpload bytes = formatSizeDocs bytes := by
  by_cases h : bytes = 0
  · subst h
    decide
  · unfold formatSizeUpload formatSizeDocs
    rw [if_neg h]

/-- Witness for C9 at a nonzero byte count (and, via the theorem, at 0). -/
theorem formatSize_functions_agree_witness :
    formatSizeUpload 2048 = formatSizeDocs 2048 :=
  formatSize_functions_agree 2048

end RAG
